import Mathlib

/-!
# PAA5100JE optical tracking sensor: register map and driver interface

Embedding of `Firmware/OutputExpander/PAA5100JE.h`.  The header holds no function
bodies: it declares nine register address constants, the `Motion` record and five
function prototypes.  The constants become `Nat` definitions, and the record and the
prototypes become declaration data (field and parameter lists in source order) over a
small type of the C types the header mentions.  Values of the scalar types are
integers in the range of the type.
-/

namespace PAA5100JE

/-! ## Register addresses (header lines 6 to 14) -/

/-- `#define PRODUCT_ID_REG_ADD 0x00` -/
def PRODUCT_ID_REG_ADD : Nat := 0x00
/-- `#define MOTION_REG_ADD 0x02` -/
def MOTION_REG_ADD : Nat := 0x02
/-- `#define DELTA_X_L_REG_ADD 0x3` -/
def DELTA_X_L_REG_ADD : Nat := 0x3
/-- `#define DELTA_X_H_REG_ADD 0x4` -/
def DELTA_X_H_REG_ADD : Nat := 0x4
/-- `#define DELTA_Y_L_REG_ADD 0x5` -/
def DELTA_Y_L_REG_ADD : Nat := 0x5
/-- `#define DELTA_Y_H_REG_ADD 0x6` -/
def DELTA_Y_H_REG_ADD : Nat := 0x6
/-- `#define MOTION_BURST_REG_ADD 0x16` -/
def MOTION_BURST_REG_ADD : Nat := 0x16
/-- `#define POWER_UP_RESET_REG_ADD 0x3A` -/
def POWER_UP_RESET_REG_ADD : Nat := 0x3A
/-- `#define INVERSE_PRODUCT_ID_REG_ADD 0x5F` -/
def INVERSE_PRODUCT_ID_REG_ADD : Nat := 0x5F

/-- The register address constants of the header, each with its name, in source order. -/
def registerMap : List (String × Nat) :=
  [ ("PRODUCT_ID_REG_ADD", PRODUCT_ID_REG_ADD),
    ("MOTION_REG_ADD", MOTION_REG_ADD),
    ("DELTA_X_L_REG_ADD", DELTA_X_L_REG_ADD),
    ("DELTA_X_H_REG_ADD", DELTA_X_H_REG_ADD),
    ("DELTA_Y_L_REG_ADD", DELTA_Y_L_REG_ADD),
    ("DELTA_Y_H_REG_ADD", DELTA_Y_H_REG_ADD),
    ("MOTION_BURST_REG_ADD", MOTION_BURST_REG_ADD),
    ("POWER_UP_RESET_REG_ADD", POWER_UP_RESET_REG_ADD),
    ("INVERSE_PRODUCT_ID_REG_ADD", INVERSE_PRODUCT_ID_REG_ADD) ]

/-! ## C types used by the header -/

/-- The C types the header mentions: `void`, `bool`, the exact-width integer types
`uint8_t` and `int16_t`, a typedef name, a sized array `T x[n]` and an array
declarator without a size `T x[]`. -/
inductive CType where
  | void
  | bool
  | uint8_t
  | int16_t
  | named (name : String)
  | array (elem : CType) (n : Nat)
  | unsizedArray (elem : CType)
  deriving DecidableEq, Repr

/-- Least and greatest value of a scalar type: `uint8_t` is 8 bits unsigned,
`int16_t` is 16 bits signed in two's complement, `bool` holds 0 or 1.  The other
types are not scalars. -/
def CType.range : CType → Option (Int × Int)
  | .bool => some (0, 1)
  | .uint8_t => some (0, 2 ^ 8 - 1)
  | .int16_t => some (-(2 ^ 15), 2 ^ 15 - 1)
  | _ => none

/-- An integer is a value of a scalar type when it lies in the range of the type. -/
def CType.inRange (t : CType) (i : Int) : Bool :=
  match t.range with
  | some (lo, hi) => decide (lo ≤ i) && decide (i ≤ hi)
  | none => false

/-- Conversion of a non-negative integer constant to `uint8_t`, as happens to an
argument passed for a `uint8_t` parameter: the value modulo `2 ^ 8`. -/
def toUint8 (n : Nat) : Nat := n % 2 ^ 8

/-- The value held by an object of the header's types: an integer for a scalar, the
list of its elements for an array of scalars. -/
inductive CVal where
  | int (i : Int)
  | arr (xs : List Int)
  deriving DecidableEq, Repr

/-- Typing of values: a scalar holds an integer in its range, an array `T x[n]` holds
exactly `n` elements that are values of `T`. -/
def CType.hasValue : CType → CVal → Bool
  | .array e n, .arr xs => (xs.length == n) && xs.all (fun x => e.inRange x)
  | .array _ _, .int _ => false
  | _, .arr _ => false
  | t, .int i => t.inRange i

/-! ## The `Motion` record (header lines 17 to 22) -/

/-- A struct declaration: its typedef name and its fields, name and type, in
source order. -/
structure StructDecl where
  name : String
  fields : List (String × CType)
  deriving DecidableEq, Repr

/-- The declaration
`typedef struct Motion { uint8_t dummy[2]; int16_t deltaA; int16_t deltaB; uint8_t Squal; } Motion;` -/
def Motion : StructDecl :=
  { name := "Motion"
    fields :=
      [ ("dummy", .array .uint8_t 2),
        ("deltaA", .int16_t),
        ("deltaB", .int16_t),
        ("Squal", .uint8_t) ] }

/-- Field values against field declarations, position by position: as many values as
fields, each a value of the type of its field. -/
def fieldsHaveValues : List (String × CType) → List CVal → Bool
  | [], [] => true
  | (_, t) :: fs, v :: vs => t.hasValue v && fieldsHaveValues fs vs
  | _, _ => false

/-- A value of a struct type is the list of the values of its fields, in order. -/
def StructDecl.hasValue (d : StructDecl) (vs : List CVal) : Bool :=
  fieldsHaveValues d.fields vs

/-! ## Function prototypes (header lines 25 to 31) -/

/-- A function prototype: result type, name, and parameters (name and type) in
order.  A parameter list `(void)` is the empty list. -/
structure Prototype where
  ret : CType
  name : String
  params : List (String × CType)
  deriving DecidableEq, Repr

/-- The declaration `bool optical_tracking_initialize(void);` -/
def optical_tracking_initialize : Prototype :=
  { ret := .bool, name := "optical_tracking_initialize", params := [] }

/-- The declaration `void performanceOptimizationRoutine(void);` -/
def performanceOptimizationRoutine : Prototype :=
  { ret := .void, name := "performanceOptimizationRoutine", params := [] }

/-- The declaration `void optical_tracking_read_motion (Motion motion[]);` -/
def optical_tracking_read_motion : Prototype :=
  { ret := .void, name := "optical_tracking_read_motion",
    params := [("motion", .unsizedArray (.named "Motion"))] }

/-- The declaration `uint8_t optical_tracking_read_register(uint8_t address);` -/
def optical_tracking_read_register : Prototype :=
  { ret := .uint8_t, name := "optical_tracking_read_register",
    params := [("address", .uint8_t)] }

/-- The declaration `void optical_tracking_write_register(uint8_t address, uint8_t byte);` -/
def optical_tracking_write_register : Prototype :=
  { ret := .void, name := "optical_tracking_write_register",
    params := [("address", .uint8_t), ("byte", .uint8_t)] }

/-- The function prototypes of the header, in source order. -/
def prototypes : List Prototype :=
  [ optical_tracking_initialize,
    performanceOptimizationRoutine,
    optical_tracking_read_motion,
    optical_tracking_read_register,
    optical_tracking_write_register ]

/-- The signature declared under a name: the parameter types in order and the result
type, or `none` when the header declares no function of that name. -/
def signatureOf (name : String) : Option (List CType × CType) :=
  (prototypes.find? (fun p => p.name == name)).map
    (fun p => (p.params.map Prod.snd, p.ret))

/-- A result type is a success flag when it is `bool`. -/
def returnsStatus (p : Prototype) : Bool := p.ret == CType.bool

/-! ## Helper lemmas -/

/-- Membership of an integer in the range of `uint8_t`. -/
theorem inRange_uint8_iff (i : Int) :
    CType.inRange .uint8_t i = true ↔ 0 ≤ i ∧ i ≤ 255 := by
  simp [CType.inRange, CType.range]

/-- Membership of an integer in the range of `int16_t`. -/
theorem inRange_int16_iff (i : Int) :
    CType.inRange .int16_t i = true ↔ -32768 ≤ i ∧ i ≤ 32767 := by
  simp [CType.inRange, CType.range]

/-- The values of `uint8_t [2]` are the two-element arrays of bytes. -/
theorem hasValue_uint8_pair (v : CVal)
    (h : CType.hasValue (.array .uint8_t 2) v = true) :
    ∃ d0 d1 : Int, v = .arr [d0, d1] ∧ (0 ≤ d0 ∧ d0 ≤ 255) ∧ (0 ≤ d1 ∧ d1 ≤ 255) := by
  cases v with
  | int i => simp [CType.hasValue] at h
  | arr xs =>
    match xs, h with
    | [d0, d1], h =>
      simp only [CType.hasValue, List.all_cons, List.all_nil, Bool.and_true,
        Bool.and_eq_true, inRange_uint8_iff] at h
      exact ⟨d0, d1, rfl, h.2.1, h.2.2⟩
    | [], h => simp [CType.hasValue] at h
    | [_], h => simp [CType.hasValue] at h
    | _ :: _ :: _ :: _, h => simp [CType.hasValue] at h

/-- A value of a scalar type is an integer in the range of the type. -/
theorem hasValue_scalar (t : CType) (v : CVal) (ht : ∀ e n, t ≠ .array e n)
    (h : t.hasValue v = true) : ∃ i : Int, v = .int i ∧ t.inRange i = true := by
  cases v with
  | int i =>
    refine ⟨i, rfl, ?_⟩
    cases t <;> exact h
  | arr xs =>
    cases t with
    | array e n => exact absurd rfl (ht e n)
    | _ => simp [CType.hasValue] at h

/-! ## The claims -/

/-- C1: the `Motion` record has exactly four fields, in this order: `dummy`, an
array of two `uint8_t`; `deltaA`, an `int16_t`; `deltaB`, an `int16_t`; `Squal`, a
`uint8_t`.  Hence every `Motion` value is made of two dummy bytes in [0, 255],
`deltaA` and `deltaB` in [-32768, 32767] and `Squal` in [0, 255]. -/
theorem motion_fields_and_ranges (v : List CVal) (h : Motion.hasValue v = true) :
    Motion.fields =
        [("dummy", CType.array CType.uint8_t 2), ("deltaA", CType.int16_t),
          ("deltaB", CType.int16_t), ("Squal", CType.uint8_t)] ∧
      Motion.fields.length = 4 ∧
      ∃ d0 d1 a b s : Int,
        v = [CVal.arr [d0, d1], CVal.int a, CVal.int b, CVal.int s] ∧
          (0 ≤ d0 ∧ d0 ≤ 255) ∧ (0 ≤ d1 ∧ d1 ≤ 255) ∧
          (-32768 ≤ a ∧ a ≤ 32767) ∧ (-32768 ≤ b ∧ b ≤ 32767) ∧
          (0 ≤ s ∧ s ≤ 255) := by
  refine ⟨rfl, rfl, ?_⟩
  match v, h with
  | [vd, va, vb, vs], h =>
    simp only [StructDecl.hasValue, Motion, fieldsHaveValues, Bool.and_eq_true,
      Bool.and_true] at h
    obtain ⟨hd, ha, hb, hs⟩ := h
    obtain ⟨d0, d1, rfl, hd0, hd1⟩ := hasValue_uint8_pair vd hd
    obtain ⟨a, rfl, ha⟩ := hasValue_scalar _ va (by intro e n; simp) ha
    obtain ⟨b, rfl, hb⟩ := hasValue_scalar _ vb (by intro e n; simp) hb
    obtain ⟨s, rfl, hs⟩ := hasValue_scalar _ vs (by intro e n; simp) hs
    exact ⟨d0, d1, a, b, s, rfl, hd0, hd1, (inRange_int16_iff a).1 ha,
      (inRange_int16_iff b).1 hb, (inRange_uint8_iff s).1 hs⟩
  | [], h => simp [StructDecl.hasValue, Motion, fieldsHaveValues] at h
  | [_], h => simp [StructDecl.hasValue, Motion, fieldsHaveValues] at h
  | [_, _], h => simp [StructDecl.hasValue, Motion, fieldsHaveValues] at h
  | [_, _, _], h => simp [StructDecl.hasValue, Motion, fieldsHaveValues] at h
  | _ :: _ :: _ :: _ :: _ :: _, h =>
    simp [StructDecl.hasValue, Motion, fieldsHaveValues] at h

/-- Witness for C1: the sample with dummy bytes 0 and 255, `deltaA` = -32768,
`deltaB` = 32767 and `Squal` = 255 is a `Motion` value, and the theorem applies. -/
theorem motion_fields_and_ranges_witness :
    Motion.hasValue
        [CVal.arr [0, 255], CVal.int (-32768), CVal.int 32767, CVal.int 255] = true ∧
      (Motion.fields =
          [("dummy", CType.array CType.uint8_t 2), ("deltaA", CType.int16_t),
            ("deltaB", CType.int16_t), ("Squal", CType.uint8_t)] ∧
        Motion.fields.length = 4 ∧
        ∃ d0 d1 a b s : Int,
          [CVal.arr [0, 255], CVal.int (-32768), CVal.int 32767, CVal.int 255] =
              [CVal.arr [d0, d1], CVal.int a, CVal.int b, CVal.int s] ∧
            (0 ≤ d0 ∧ d0 ≤ 255) ∧ (0 ≤ d1 ∧ d1 ≤ 255) ∧
            (-32768 ≤ a ∧ a ≤ 32767) ∧ (-32768 ≤ b ∧ b ≤ 32767) ∧
            (0 ≤ s ∧ s ≤ 255)) :=
  ⟨by decide, motion_fields_and_ranges _ (by decide)⟩

/-- C2, as stated, fails: the header does not declare six function prototypes. -/
theorem prototypes_count_ne_six : prototypes.length ≠ 6 := by decide

/-- C2, amended: the header declares five function prototypes as its driver-call
surface, under five different names: initialize, optimize, read-motion,
read-register and write-register. -/
theorem prototypes_count_eq_five :
    prototypes.length = 5 ∧
      prototypes.map Prototype.name =
        ["optical_tracking_initialize", "performanceOptimizationRoutine",
          "optical_tracking_read_motion", "optical_tracking_read_register",
          "optical_tracking_write_register"] ∧
      (prototypes.map Prototype.name).Nodup := by
  refine ⟨rfl, rfl, ?_⟩
  decide

/-- C3: the declared operations are exactly the five named ones, with these
signatures: `optical_tracking_initialize` takes no argument and returns `bool`;
`performanceOptimizationRoutine` takes no argument and returns nothing;
`optical_tracking_read_motion` takes one array of `Motion` records of unstated
length and returns nothing; `optical_tracking_read_register` takes one `uint8_t`
and returns one `uint8_t`; `optical_tracking_write_register` takes two `uint8_t`
and returns nothing.  The result type of the register read is the plain byte type,
whose values are all of 0..255, that of the register write is `void`, and the only
prototype returning a success flag is `optical_tracking_initialize`: neither
register primitive declares a way to signal an error. -/
theorem prototype_signatures :
    prototypes.map Prototype.name =
        ["optical_tracking_initialize", "performanceOptimizationRoutine",
          "optical_tracking_read_motion", "optical_tracking_read_register",
          "optical_tracking_write_register"] ∧
      signatureOf "optical_tracking_initialize" = some ([], CType.bool) ∧
      signatureOf "performanceOptimizationRoutine" = some ([], CType.void) ∧
      signatureOf "optical_tracking_read_motion" =
        some ([CType.unsizedArray (CType.named Motion.name)], CType.void) ∧
      signatureOf "optical_tracking_read_register" =
        some ([CType.uint8_t], CType.uint8_t) ∧
      signatureOf "optical_tracking_write_register" =
        some ([CType.uint8_t, CType.uint8_t], CType.void) ∧
      (prototypes.filter returnsStatus).map Prototype.name =
        ["optical_tracking_initialize"] ∧
      (∀ i : Int, CType.inRange optical_tracking_read_register.ret i = true ↔
        0 ≤ i ∧ i ≤ 255) ∧
      CType.range optical_tracking_write_register.ret = none := by
  refine ⟨rfl, by decide, by decide, by decide, by decide, by decide, by decide,
    ?_, rfl⟩
  intro i
  exact inRange_uint8_iff i

/-- C4: the header declares nine register address constants, with the values 0x00,
0x02, 0x03, 0x04, 0x05, 0x06, 0x16, 0x3A and 0x5F; each is at most 0x7F, is
unchanged by conversion to `uint8_t` (reduction modulo 256), and has bit 7, the
most significant bit of a byte, clear. -/
theorem register_addresses_fit_uint8 :
    registerMap =
        [("PRODUCT_ID_REG_ADD", 0x00), ("MOTION_REG_ADD", 0x02),
          ("DELTA_X_L_REG_ADD", 0x03), ("DELTA_X_H_REG_ADD", 0x04),
          ("DELTA_Y_L_REG_ADD", 0x05), ("DELTA_Y_H_REG_ADD", 0x06),
          ("MOTION_BURST_REG_ADD", 0x16), ("POWER_UP_RESET_REG_ADD", 0x3A),
          ("INVERSE_PRODUCT_ID_REG_ADD", 0x5F)] ∧
      registerMap.length = 9 ∧
      ∀ r ∈ registerMap,
        r.2 ≤ 0x7F ∧ toUint8 r.2 = r.2 ∧ r.2 % 256 = r.2 ∧
          r.2.testBit 7 = false ∧ r.2 &&& 0x80 = 0 ∧
          CType.inRange CType.uint8_t (r.2 : Int) = true := by
  refine ⟨rfl, rfl, ?_⟩
  decide

/-- C5: the nine register address constants are pairwise distinct: two entries of
the register map with different names have different addresses. -/
theorem register_addresses_pairwise_distinct :
    registerMap.length = 9 ∧
      (registerMap.map Prod.snd).Nodup ∧
      registerMap.Pairwise (fun r s => r.1 ≠ s.1 ∧ r.2 ≠ s.2) := by
  refine ⟨rfl, ?_, ?_⟩ <;> decide

/-- C6: the motion and delta registers form one ascending block of consecutive
addresses: `MOTION`, `DELTA_X_L`, `DELTA_X_H`, `DELTA_Y_L`, `DELTA_Y_H` are 0x02,
0x03, 0x04, 0x05, 0x06; for each axis the high-byte address is the low-byte address
plus one, and `DELTA_Y_L` is `DELTA_X_H` plus one. -/
theorem motion_delta_registers_contiguous :
    [MOTION_REG_ADD, DELTA_X_L_REG_ADD, DELTA_X_H_REG_ADD, DELTA_Y_L_REG_ADD,
        DELTA_Y_H_REG_ADD] = [0x02, 0x03, 0x04, 0x05, 0x06] ∧
      [MOTION_REG_ADD, DELTA_X_L_REG_ADD, DELTA_X_H_REG_ADD, DELTA_Y_L_REG_ADD,
        DELTA_Y_H_REG_ADD] = (List.range 5).map (fun k => MOTION_REG_ADD + k) ∧
      DELTA_X_H_REG_ADD = DELTA_X_L_REG_ADD + 1 ∧
      DELTA_Y_H_REG_ADD = DELTA_Y_L_REG_ADD + 1 ∧
      DELTA_Y_L_REG_ADD = DELTA_X_H_REG_ADD + 1 ∧
      DELTA_X_L_REG_ADD = MOTION_REG_ADD + 1 := by
  refine ⟨rfl, rfl, rfl, rfl, rfl, rfl⟩

end PAA5100JE
